import Mathlib

/-!
Verification development for the data-analytics dashboard's
natural-language-to-SQL pipeline.

Strings are modelled as `List Char`; Python string primitives
(`strip`, `upper`, `lower`, `replace`, `split`, substring `in`,
`startswith`) are given executable Lean counterparts, and the
relevant functions of
`data_analytics_dashboard/database/queries.py`,
`data_analytics_dashboard/ai/response_parser.py`,
`data_analytics_dashboard/ai/prompt_manager.py`,
`data_analytics_dashboard/ai/openai_client.py` and
`data_analytics_dashboard/pages/custom_query.py`
are translated on top of them.  Python's `str.upper`/`str.lower` are
modelled by the ASCII `Char.toUpper`/`Char.toLower` (all strings the
program manipulates in the verified paths are ASCII).
-/

namespace DataDash

/-- Characters treated as whitespace by Python's default `str.strip`
and `str.split`. -/
def pyWS (c : Char) : Bool :=
  c == ' ' || c == '\t' || c == '\n' || c == '\r' || c == '\x0b' || c == '\x0c'

/-- Python `str.strip()`: drop leading and trailing whitespace. -/
def pyStrip (s : List Char) : List Char :=
  ((s.dropWhile pyWS).reverse.dropWhile pyWS).reverse

/-- Python `str.upper()` (ASCII model). -/
def pyUpper (s : List Char) : List Char :=
  s.map Char.toUpper

/-- Python `str.lower()` (ASCII model). -/
def pyLower (s : List Char) : List Char :=
  s.map Char.toLower

/-- Python `pat in s` substring test. -/
def containsSub (pat : List Char) : List Char → Bool
  | [] => pat.isPrefixOf ([] : List Char)
  | c :: cs => pat.isPrefixOf (c :: cs) || containsSub pat cs

/-- Python `s.startswith((p1, p2, ...))`. -/
def startsWithAny (s : List Char) (ps : List (List Char)) : Bool :=
  ps.any (fun p => p.isPrefixOf s)

/-- Python `s.split()` with no argument: split on whitespace runs,
discarding empty pieces. -/
def splitWs (s : List Char) : List (List Char) :=
  (s.splitOnP pyWS).filter (fun l => !l.isEmpty)

/-- Python `' '.join(pieces)`. -/
def joinSpace (ps : List (List Char)) : List Char :=
  List.intercalate ([' ']) ps

/-- Python `s.rstrip(';')`: drop trailing semicolon characters. -/
def rstripSemi (s : List Char) : List Char :=
  (s.reverse.dropWhile (fun c => c == ';')).reverse

/-- Python `s.split('\n')`: split on every newline, keeping empty pieces. -/
def splitNl : List Char → List (List Char)
  | [] => [[]]
  | c :: cs =>
    if c = '\n' then [] :: splitNl cs
    else
      match splitNl cs with
      | [] => [[c]]
      | h :: t => (c :: h) :: t

/-- Fuel-driven worker for `replaceAll`; the fuel is always at least the
length of the scanned list, so the `0, s => s` fallback is never taken. -/
def replaceAllAux (pat rep : List Char) : Nat → List Char → List Char
  | _, [] => []
  | 0, s => s
  | Nat.succ fuel, c :: cs =>
    if pat.isPrefixOf (c :: cs) then
      rep ++ replaceAllAux pat rep fuel (cs.drop (pat.length - 1))
    else
      c :: replaceAllAux pat rep fuel cs

/-- Python `s.replace(pat, rep)` for a non-empty `pat`: replace every
non-overlapping occurrence, scanning left to right.  (The program only
ever calls `replace` with non-empty patterns; the `pat = []` branch is
inert.) -/
def replaceAll (pat rep s : List Char) : List Char :=
  if pat = [] then s else replaceAllAux pat rep s.length s

/-- Helper for the `;.*SELECT` and `UNION.*SELECT` regexes (compiled
without `re.DOTALL`, so `.` does not match a newline): does `pat` occur
in `s` with no newline strictly before the occurrence? -/
def findOnLine (pat : List Char) : List Char → Bool
  | [] => pat.isPrefixOf ([] : List Char)
  | c :: cs => pat.isPrefixOf (c :: cs) || (!(c == '\n') && findOnLine pat cs)

/-- Model of `re.search(r';.*SELECT', s)`: a `';'` followed, with no
intervening newline, by the literal `SELECT`. -/
def semiThenSelect : List Char → Bool
  | [] => false
  | c :: cs => ((c == ';') && findOnLine ("SELECT".toList) cs) || semiThenSelect cs

/-- Model of `re.search(r'UNION.*SELECT', s)`: the literal `UNION`
followed, with no intervening newline, by the literal `SELECT`. -/
def unionThenSelect : List Char → Bool
  | [] => false
  | c :: cs =>
    (("UNION".toList).isPrefixOf (c :: cs) && findOnLine ("SELECT".toList) (cs.drop 4))
      || unionThenSelect cs

/-- Allow-listed leading keywords of `is_safe_query`
(`database/queries.py`). -/
def safe_starts : List (List Char) :=
  [("SELECT".toList), ("WITH".toList), ("SHOW".toList),
   ("DESCRIBE".toList), ("EXPLAIN".toList)]

/-- Deny-listed keywords of `is_safe_query` (`database/queries.py`). -/
def dangerous_keywords : List (List Char) :=
  [("DROP".toList), ("DELETE".toList), ("UPDATE".toList), ("INSERT".toList),
   ("ALTER".toList), ("CREATE".toList), ("TRUNCATE".toList), ("GRANT".toList),
   ("REVOKE".toList), ("EXEC".toList), ("EXECUTE".toList)]

/-- Model of `is_safe_query` (`database/queries.py`, lines 117-156):
upper-case and trim the query, require an allow-listed leading keyword,
no deny-listed keyword as a substring, and none of the four suspicious
regex patterns `--`, `/\*`, `;.*SELECT`, `UNION.*SELECT`. -/
def is_safe_query (sql : List Char) : Bool :=
  let sql_upper := pyStrip (pyUpper sql)
  startsWithAny sql_upper safe_starts
    && !(dangerous_keywords.any (fun k => containsSub k sql_upper))
    && !(containsSub ("--".toList) sql_upper)
    && !(containsSub ("/*".toList) sql_upper)
    && !(semiThenSelect sql_upper)
    && !(unionThenSelect sql_upper)

/-- Helper: acceptance by `is_safe_query` splits into its six
conjuncts. -/
theorem is_safe_query_split (sql : List Char)
    (h : is_safe_query sql = true) :
    startsWithAny (pyStrip (pyUpper sql)) safe_starts = true ∧
    (∀ k ∈ dangerous_keywords, containsSub k (pyStrip (pyUpper sql)) = false) ∧
    containsSub ("--".toList) (pyStrip (pyUpper sql)) = false ∧
    containsSub ("/*".toList) (pyStrip (pyUpper sql)) = false ∧
    semiThenSelect (pyStrip (pyUpper sql)) = false ∧
    unionThenSelect (pyStrip (pyUpper sql)) = false := by
  simp only [is_safe_query, Bool.and_eq_true, Bool.not_eq_true'] at h
  obtain ⟨⟨⟨⟨⟨h1, h2⟩, h3⟩, h4⟩, h5⟩, h6⟩ := h
  refine ⟨h1, ?_, h3, h4, h5, h6⟩
  intro k hk
  have hb := List.any_eq_false.mp h2 k hk
  simpa using hb

/-- C3: for every query string accepted by the Safety Filter
(`is_safe_query`), the trimmed upper-cased text starts with one of the
allow-listed keywords SELECT, WITH, SHOW, DESCRIBE, EXPLAIN; contains
none of the deny-listed keywords as a substring; and matches none of
the deny-listed patterns (`--`, `/*`, a `;` followed by a further
SELECT on the same line, a UNION followed by a SELECT on the same
line). -/
theorem safe_query_acceptance_conditions (sql : List Char)
    (h : is_safe_query sql = true) :
    startsWithAny (pyStrip (pyUpper sql)) safe_starts = true ∧
    (∀ k ∈ dangerous_keywords, containsSub k (pyStrip (pyUpper sql)) = false) ∧
    containsSub ("--".toList) (pyStrip (pyUpper sql)) = false ∧
    containsSub ("/*".toList) (pyStrip (pyUpper sql)) = false ∧
    semiThenSelect (pyStrip (pyUpper sql)) = false ∧
    unionThenSelect (pyStrip (pyUpper sql)) = false :=
  is_safe_query_split sql h

/-- Witness for C3 at the concrete accepted query `SELECT * FROM t`. -/
theorem safe_query_acceptance_conditions_witness :
    is_safe_query ("SELECT * FROM t".toList) = true ∧
    (startsWithAny (pyStrip (pyUpper ("SELECT * FROM t".toList))) safe_starts = true ∧
     (∀ k ∈ dangerous_keywords,
        containsSub k (pyStrip (pyUpper ("SELECT * FROM t".toList))) = false) ∧
     containsSub ("--".toList) (pyStrip (pyUpper ("SELECT * FROM t".toList))) = false ∧
     containsSub ("/*".toList) (pyStrip (pyUpper ("SELECT * FROM t".toList))) = false ∧
     semiThenSelect (pyStrip (pyUpper ("SELECT * FROM t".toList))) = false ∧
     unionThenSelect (pyStrip (pyUpper ("SELECT * FROM t".toList))) = false) :=
  ⟨by decide, safe_query_acceptance_conditions _ (by decide)⟩

/-- Counterexample to C4: the query `SHOW TABLES` passes the Safety
Filter yet its trimmed upper-cased text starts with neither SELECT nor
WITH. -/
theorem show_passes_filter_counterexample :
    is_safe_query ("SHOW TABLES".toList) = true ∧
    ("SELECT".toList).isPrefixOf (pyStrip (pyUpper ("SHOW TABLES".toList))) = false ∧
    ("WITH".toList).isPrefixOf (pyStrip (pyUpper ("SHOW TABLES".toList))) = false := by
  decide

/-- C4 amended: every query string that passes the Safety Filter starts
(after trimming and case normalization) with one of SELECT, WITH, SHOW,
DESCRIBE, EXPLAIN, and contains no statement-altering keyword of the
deny list. -/
theorem safe_query_allowlist_amended (sql : List Char)
    (h : is_safe_query sql = true) :
    (("SELECT".toList).isPrefixOf (pyStrip (pyUpper sql)) = true ∨
     ("WITH".toList).isPrefixOf (pyStrip (pyUpper sql)) = true ∨
     ("SHOW".toList).isPrefixOf (pyStrip (pyUpper sql)) = true ∨
     ("DESCRIBE".toList).isPrefixOf (pyStrip (pyUpper sql)) = true ∨
     ("EXPLAIN".toList).isPrefixOf (pyStrip (pyUpper sql)) = true) ∧
    (∀ k ∈ dangerous_keywords, containsSub k (pyStrip (pyUpper sql)) = false) := by
  have hc := is_safe_query_split sql h
  refine ⟨?_, hc.2.1⟩
  have h1 := hc.1
  simp only [startsWithAny, safe_starts, List.any_cons, List.any_nil,
    Bool.or_eq_true, Bool.or_eq_false_iff] at h1
  tauto

/-- Witness for C4's amended statement at the query `SELECT id FROM t`. -/
theorem safe_query_allowlist_amended_witness :
    is_safe_query ("SELECT id FROM t".toList) = true ∧
    ((("SELECT".toList).isPrefixOf (pyStrip (pyUpper ("SELECT id FROM t".toList))) = true ∨
      ("WITH".toList).isPrefixOf (pyStrip (pyUpper ("SELECT id FROM t".toList))) = true ∨
      ("SHOW".toList).isPrefixOf (pyStrip (pyUpper ("SELECT id FROM t".toList))) = true ∨
      ("DESCRIBE".toList).isPrefixOf (pyStrip (pyUpper ("SELECT id FROM t".toList))) = true ∨
      ("EXPLAIN".toList).isPrefixOf (pyStrip (pyUpper ("SELECT id FROM t".toList))) = true) ∧
     (∀ k ∈ dangerous_keywords,
        containsSub k (pyStrip (pyUpper ("SELECT id FROM t".toList))) = false)) :=
  ⟨by decide, safe_query_allowlist_amended _ (by decide)⟩

/-- Worker for the markdown-fence removal inside `clean_sql_query`:
walk the lines, toggling `inBlock` at every line whose stripped form
starts with three backticks, and keep only lines outside a block. -/
def stripFenceLines (inBlock : Bool) : List (List Char) → List (List Char)
  | [] => []
  | l :: ls =>
    if ("```".toList).isPrefixOf (pyStrip l) then stripFenceLines (!inBlock) ls
    else if !inBlock then l :: stripFenceLines inBlock ls
    else stripFenceLines inBlock ls

/-- Model of the markdown-removal block of `clean_sql_query`
(`database/queries.py`, lines 98-107). -/
def stripCodeFences (s : List Char) : List Char :=
  pyStrip (List.intercalate (['\n']) (stripFenceLines false (splitNl s)))

/-- Model of `clean_sql_query` (`database/queries.py`, lines 82-115):
strip, remove markdown code fences when the text starts with one,
drop a trailing semicolon, and collapse all whitespace runs to single
spaces. -/
def clean_sql_query (sql : List Char) : List Char :=
  if sql = [] then []
  else
    let s := pyStrip sql
    let s := if ("```".toList).isPrefixOf s then stripCodeFences s else s
    let s := pyStrip (rstripSemi s)
    joinSpace (splitWs s)

/-- Model of `handle_query_error` (`database/queries.py`, lines
190-214): the headline error text shown to the user, chosen by
categorizing the backend error message. -/
def handle_query_error_message (e : List Char) : List Char :=
  if containsSub ("syntax error".toList) (pyLower e) then
    ("SQL Syntax Error: ".toList) ++ e
  else if containsSub ("does not exist".toList) (pyLower e) then
    ("Database Error: ".toList) ++ e
  else if containsSub ("permission".toList) (pyLower e) then
    ("Permission Error: ".toList) ++ e
  else ("Database Error: ".toList) ++ e

/-- Tabular result of a query: a list of rows.  `pandas.DataFrame`
emptiness corresponds to the empty list. -/
abbrev Df := List (List Char)

/-- Instrumented result of `execute_sql_query`: the returned DataFrame,
whether the database backend (`execute_sqlite_query` /
`execute_postgres_query`) was invoked, and the error text displayed via
`st.error`, if any. -/
structure ExecResult where
  df : Df
  backendCalled : Bool
  errorShown : Option (List Char)
deriving DecidableEq

/-- Model of `execute_sql_query` (`database/queries.py`, lines 12-47).
The two backend kinds (SQLAlchemy engine vs SQLite path) are modelled
by one function `backend` from the cleaned SQL text to either a result
table or the exception message it raises; the surrounding
`try/except` turns a backend exception into an error display plus an
empty DataFrame. -/
def execute_sql_query (backend : List Char → Except (List Char) Df)
    (sqlRaw : List Char) : ExecResult :=
  let sql := clean_sql_query sqlRaw
  if sql = [] ∨ (pyStrip sql).length < 5 then
    { df := [], backendCalled := false,
      errorShown := some ("Generated SQL query is too short or empty".toList) }
  else if is_safe_query sql = false then
    { df := [], backendCalled := false,
      errorShown := some ("Query contains potentially unsafe operations".toList) }
  else
    match backend sql with
    | Except.ok d => { df := d, backendCalled := true, errorShown := none }
    | Except.error e =>
      { df := [], backendCalled := true,
        errorShown := some (handle_query_error_message e) }

/-- C9: the query-execution entry point is total over its inputs and
returns the empty table on every failure path — a cleaned query that is
empty or shorter than 5 characters, a Safety Filter rejection, and a
backend execution error all yield the same empty DataFrame that a
successfully executed zero-row query yields. -/
theorem execute_sql_query_empty_on_failure
    (backend : List Char → Except (List Char) Df) (sqlRaw : List Char) :
    ((clean_sql_query sqlRaw = [] ∨ (pyStrip (clean_sql_query sqlRaw)).length < 5) →
        (execute_sql_query backend sqlRaw).df = []) ∧
    (is_safe_query (clean_sql_query sqlRaw) = false →
        (execute_sql_query backend sqlRaw).df = []) ∧
    (∀ e, backend (clean_sql_query sqlRaw) = Except.error e →
        (execute_sql_query backend sqlRaw).df = []) ∧
    (backend (clean_sql_query sqlRaw) = Except.ok [] →
        (execute_sql_query backend sqlRaw).df = []) := by
  refine ⟨?_, ?_, ?_, ?_⟩
  · intro h
    simp [execute_sql_query, h]
  · intro h
    by_cases h1 : clean_sql_query sqlRaw = [] ∨ (pyStrip (clean_sql_query sqlRaw)).length < 5
    · simp [execute_sql_query, h1]
    · simp [execute_sql_query, h1, h]
  · intro e h
    by_cases h1 : clean_sql_query sqlRaw = [] ∨ (pyStrip (clean_sql_query sqlRaw)).length < 5
    · simp [execute_sql_query, h1]
    · by_cases h2 : is_safe_query (clean_sql_query sqlRaw) = false
      · simp [execute_sql_query, h1, h2]
      · simp [execute_sql_query, h1, h2, h]
  · intro h
    by_cases h1 : clean_sql_query sqlRaw = [] ∨ (pyStrip (clean_sql_query sqlRaw)).length < 5
    · simp [execute_sql_query, h1]
    · by_cases h2 : is_safe_query (clean_sql_query sqlRaw) = false
      · simp [execute_sql_query, h1, h2]
      · simp [execute_sql_query, h1, h2, h]

/-- Witness for C9: a too-short query, an unsafe query, an erroring
backend, and a zero-row success all return the empty DataFrame. -/
theorem execute_sql_query_empty_on_failure_witness :
    (execute_sql_query (fun _ => Except.ok ([("1".toList)] : Df)) ("ab".toList)).df = [] ∧
    (execute_sql_query (fun _ => Except.ok ([("r".toList)] : Df)) ("DROP TABLE t".toList)).df = [] ∧
    (execute_sql_query (fun _ => Except.error ("syntax error at x".toList)) ("SELECT a FROM t".toList)).df = [] ∧
    (execute_sql_query (fun _ => Except.ok ([] : Df)) ("SELECT a FROM t".toList)).df = [] :=
  ⟨(execute_sql_query_empty_on_failure _ _).1 (by decide),
   (execute_sql_query_empty_on_failure _ _).2.1 (by decide),
   (execute_sql_query_empty_on_failure _ _).2.2.1 _ rfl,
   (execute_sql_query_empty_on_failure _ _).2.2.2 rfl⟩

/-- Case-insensitive prefix test, modelling `re.IGNORECASE` literal
matching (ASCII). -/
def ciPrefixOf : List Char → List Char → Bool
  | [], _ => true
  | _ :: _, [] => false
  | p :: ps, c :: cs => (p.toLower == c.toLower) && ciPrefixOf ps cs

/-- Suffix of `s` starting at the first case-insensitive occurrence of
`pat`, if any. -/
def findCI (pat : List Char) : List Char → Option (List Char)
  | [] => if ciPrefixOf pat [] then some [] else none
  | c :: cs => if ciPrefixOf pat (c :: cs) then some (c :: cs) else findCI pat cs

/-- Content of `s` strictly before the first (case-sensitive)
occurrence of `pat`; `none` when `pat` does not occur.  (Only used
with non-empty patterns.) -/
def takeUntilSub (pat : List Char) : List Char → Option (List Char)
  | [] => if pat.isPrefixOf ([] : List Char) then some [] else none
  | c :: cs =>
    if pat.isPrefixOf (c :: cs) then some []
    else
      match takeUntilSub pat cs with
      | some r => some (c :: r)
      | none => none

/-- Model of `re.search(r'```sql\s*(.*?)\s*```', text, DOTALL | IGNORECASE)`
followed by `.group(1).strip()` in `extract_sql_from_text`: the first
case-insensitive occurrence of the fenced `sql` opener that has a
closing triple backtick yields the stripped text between them. -/
def extractFencedSql : List Char → Option (List Char)
  | [] => none
  | c :: cs =>
    if ciPrefixOf ("```sql".toList) (c :: cs) then
      match takeUntilSub ("```".toList) ((c :: cs).drop 6) with
      | some content => some (pyStrip content)
      | none => extractFencedSql cs
    else extractFencedSql cs

/-- Model of `re.search(r'SQL_QUERY:\s*(.*?)(?:\n|$)', text, IGNORECASE)`
followed by `.group(1).strip()` and fence removal, the second fallback
of `extract_sql_from_text`: after the first case-insensitive
`SQL_QUERY:` label, greedily skip whitespace (which may cross
newlines), then take up to the next newline or the end. -/
def extractAfterLabel (t : List Char) : Option (List Char) :=
  match findCI ("SQL_QUERY:".toList) t with
  | none => none
  | some suffix =>
    let payload := pyStrip (((suffix.drop 10).dropWhile pyWS).takeWhile (fun c => !(c == '\n')))
    some (pyStrip (replaceAll ("```".toList) [] (replaceAll ("```sql".toList) [] payload)))

/-- Lazy tail for `re.search(r'(SELECT.*?(?:;|$))', text, DOTALL | IGNORECASE)`:
take characters up to and including the first `';'`; without a
semicolon, stop before a final newline (where `$` matches) or at the
end. -/
def takeUpToSemiOrEnd : List Char → List Char
  | [] => []
  | c :: cs =>
    if c = ';' then [';']
    else if c = '\n' ∧ cs = [] then []
    else c :: takeUpToSemiOrEnd cs

/-- Model of the third fallback of `extract_sql_from_text`: a
`SELECT ... ;` or `SELECT ... <end>` span, stripped, with trailing
semicolons removed and stripped again. -/
def extractSelectSpan (t : List Char) : Option (List Char) :=
  match findCI ("SELECT".toList) t with
  | none => none
  | some suffix =>
    let body := ("SELECT".toList) ++ takeUpToSemiOrEnd (suffix.drop 6)
    some (pyStrip (rstripSemi (pyStrip body)))

/-- Python regex `\w` (ASCII model): letters, digits, underscore. -/
def isWordChar (c : Char) : Bool :=
  c.isAlphanum || c == '_'

/-- Does the keyword `pat` match case-insensitively at the start of `s`
with a word boundary after it? -/
def kwBoundary (pat s : List Char) : Bool :=
  ciPrefixOf pat s &&
    (match s.drop pat.length with
     | [] => true
     | d :: _ => !isWordChar d)

/-- Scan for `\b(SELECT|WITH)\b` (IGNORECASE): suffix of the text from
the first boundary-delimited SELECT or WITH keyword.  `prevWord` says
whether the previous character was a word character. -/
def findKeywordTail (prevWord : Bool) : List Char → Option (List Char)
  | [] => none
  | c :: cs =>
    if !prevWord && (kwBoundary ("SELECT".toList) (c :: cs)
        || kwBoundary ("WITH".toList) (c :: cs)) then
      some (c :: cs)
    else findKeywordTail (isWordChar c) cs

/-- Python `s.split(delim)[0]` for a delimiter occurring in `s`;
when the delimiter does not occur the text is unchanged. -/
def chopAt (delim : List Char) (s : List Char) : List Char :=
  match takeUntilSub delim s with
  | some a => a
  | none => s

/-- The sequential delimiter truncation in the fourth fallback of
`extract_sql_from_text`: stop at a blank line, a following labeled
field, or an explanatory marker (applied in source order). -/
def chopAtDelims (s : List Char) : List Char :=
  chopAt ("Note:".toList)
    (chopAt ("Explanation:".toList)
      (chopAt ("INSIGHTS:".toList)
        (chopAt ("VIZ_TYPE:".toList)
          (chopAt ("\n\n".toList) s))))

/-- Model of the fourth fallback of `extract_sql_from_text`: any text
from the first word-bounded SELECT or WITH keyword to the end,
truncated at common delimiters, then stripped with trailing semicolons
removed. -/
def extractLooseSql (t : List Char) : Option (List Char) :=
  match findKeywordTail false t with
  | none => none
  | some tail => some (rstripSemi (pyStrip (chopAtDelims tail)))

/-- Model of `extract_sql_from_text` (`ai/response_parser.py`, lines
51-89): the four fallbacks tried in order, returning the empty string
when none matches. -/
def extract_sql_from_text (t : List Char) : List Char :=
  match extractFencedSql t with
  | some r => r
  | none =>
    match extractAfterLabel t with
    | some r => r
    | none =>
      match extractSelectSpan t with
      | some r => r
      | none =>
        match extractLooseSql t with
        | some r => r
        | none => []

/-- Terminator test for the re-extraction regex inside
`clean_extracted_sql`: can `\s*(?:VIZ_TYPE|VIZ_REASON|ALTERNATIVE|INSIGHTS|$)`
match at this point of the text? -/
def cleanStop : List Char → Bool
  | [] => true
  | c :: cs =>
    ciPrefixOf ("VIZ_TYPE".toList) (c :: cs)
      || ciPrefixOf ("VIZ_REASON".toList) (c :: cs)
      || ciPrefixOf ("ALTERNATIVE".toList) (c :: cs)
      || ciPrefixOf ("INSIGHTS".toList) (c :: cs)
      || (pyWS c && cleanStop cs)

/-- Lazy body for the re-extraction regex inside `clean_extracted_sql`:
consume characters until the terminator can match. -/
def takeUntilCleanStop : List Char → List Char
  | [] => []
  | c :: cs => if cleanStop (c :: cs) then [] else c :: takeUntilCleanStop cs

/-- Model of
`re.search(r'(SELECT.*?)(?:\s*(?:VIZ_TYPE|VIZ_REASON|ALTERNATIVE|INSIGHTS|$))', sql, DOTALL | IGNORECASE)`
followed by `.group(1).strip()`. -/
def reExtractSelect (s : List Char) : Option (List Char) :=
  match findCI ("SELECT".toList) s with
  | none => none
  | some suffix => some (pyStrip (("SELECT".toList) ++ takeUntilCleanStop (suffix.drop 6)))

/-- Model of `clean_extracted_sql` (`ai/response_parser.py`, lines
91-121): remove residual markdown, collapse whitespace, drop a trailing
semicolon, and if the result does not look like SQL attempt one more
embedded SELECT extraction. -/
def clean_extracted_sql (sql : List Char) : List Char :=
  if sql = [] then []
  else
    let s := replaceAll ("```".toList) [] (replaceAll ("```sql".toList) [] sql)
    let s := joinSpace (splitWs s)
    let s := pyStrip (rstripSemi s)
    if startsWithAny (pyStrip (pyUpper s))
        [("SELECT".toList), ("WITH".toList), ("SHOW".toList)] then s
    else
      match reExtractSelect s with
      | some m => m
      | none => s

/-- The eight known visualization kinds (`valid_types` in
`ai/response_parser.py`). -/
def valid_types : List (List Char) :=
  [("bar_chart".toList), ("line_chart".toList), ("pie_chart".toList),
   ("scatter_plot".toList), ("histogram".toList), ("box_plot".toList),
   ("heatmap".toList), ("table".toList)]

/-- The substring-keyed normalization table (`type_mappings` in
`ai/response_parser.py`), in Python dict insertion order. -/
def type_mappings : List (List Char × List Char) :=
  [(("bar".toList), ("bar_chart".toList)),
   (("column".toList), ("bar_chart".toList)),
   (("line".toList), ("line_chart".toList)),
   (("trend".toList), ("line_chart".toList)),
   (("pie".toList), ("pie_chart".toList)),
   (("donut".toList), ("pie_chart".toList)),
   (("scatter".toList), ("scatter_plot".toList)),
   (("scatterplot".toList), ("scatter_plot".toList)),
   (("hist".toList), ("histogram".toList)),
   (("distribution".toList), ("histogram".toList)),
   (("box".toList), ("box_plot".toList)),
   (("boxplot".toList), ("box_plot".toList)),
   (("heat".toList), ("heatmap".toList)),
   (("correlation".toList), ("heatmap".toList))]

/-- Model of `validate_visualization_type` (`ai/response_parser.py`,
lines 123-170): lower-case and trim, accept a known kind as-is, else
the first mapping whose key occurs as a substring, else `bar_chart`. -/
def validate_visualization_type (viz : List Char) : List Char :=
  let vt := pyStrip (pyLower viz)
  if vt ∈ valid_types then vt
  else
    match type_mappings.find? (fun kv => containsSub kv.1 vt) with
    | some kv => kv.2
    | none => ("bar_chart".toList)

/-- Accumulator for the line loop of `parse_openai_response`. -/
structure ParseAcc where
  sql : List Char
  viz : List Char
  reason : List Char
  insights : List Char
deriving DecidableEq

/-- One iteration of the structured-response line loop of
`parse_openai_response` (`ai/response_parser.py`, lines 27-36). -/
def parseLine (acc : ParseAcc) (line : List Char) : ParseAcc :=
  if ("SQL_QUERY:".toList).isPrefixOf line then
    let s := pyStrip (replaceAll ("SQL_QUERY:".toList) [] line)
    { acc with sql := pyStrip (replaceAll ("```".toList) [] (replaceAll ("```sql".toList) [] s)) }
  else if ("VIZ_TYPE:".toList).isPrefixOf line then
    { acc with viz := pyStrip (replaceAll ("VIZ_TYPE:".toList) [] line) }
  else if ("VIZ_REASON:".toList).isPrefixOf line then
    { acc with reason := pyStrip (replaceAll ("VIZ_REASON:".toList) [] line) }
  else if ("INSIGHTS:".toList).isPrefixOf line then
    { acc with insights := pyStrip (replaceAll ("INSIGHTS:".toList) [] line) }
  else acc

/-- Model of `parse_openai_response` (`ai/response_parser.py`, lines
7-49): structured line scan, fallback extraction when no
`SQL_QUERY:` line is found, SQL cleanup, and visualization-kind
normalization. -/
def parse_openai_response (response_text : List Char) :
    List Char × List Char × List Char × List Char :=
  if response_text = [] then
    ([], ("bar_chart".toList), ("Default visualization".toList), [])
  else
    let acc := (splitNl response_text).foldl parseLine
      { sql := [], viz := ("bar_chart".toList),
        reason := ("Default visualization".toList), insights := [] }
    let sql1 := if acc.sql = [] then extract_sql_from_text response_text else acc.sql
    let sql2 := if sql1 = [] then sql1 else clean_extracted_sql sql1
    (sql2, validate_visualization_type acc.viz, acc.reason, acc.insights)

/-- Helper: the normalizer always lands in the eight known kinds. -/
theorem validate_visualization_type_mem (s : List Char) :
    validate_visualization_type s ∈ valid_types := by
  simp only [validate_visualization_type]
  split
  · assumption
  · split
    · next kv hfind =>
      have hmem := List.mem_of_find?_eq_some hfind
      have hall : ∀ kv ∈ type_mappings, kv.2 ∈ valid_types := by decide
      exact hall kv hmem
    · decide

/-- C8: visualization-kind normalization is idempotent — each of the
eight known chart kinds is a fixed point, normalizing any string twice
equals normalizing it once, and `donut`, `Donut`, ` DONUT ` all
normalize to `pie_chart`. -/
theorem viz_normalization_idempotent :
    (∀ t ∈ valid_types, validate_visualization_type t = t) ∧
    (∀ s, validate_visualization_type (validate_visualization_type s)
        = validate_visualization_type s) ∧
    validate_visualization_type ("donut".toList) = ("pie_chart".toList) ∧
    validate_visualization_type ("Donut".toList) = ("pie_chart".toList) ∧
    validate_visualization_type ((" DONUT ").toList) = ("pie_chart".toList) := by
  have hfix : ∀ t ∈ valid_types, validate_visualization_type t = t := by decide
  exact ⟨hfix, fun s => hfix _ (validate_visualization_type_mem s),
    by decide, by decide, by decide⟩

/-- Witness for C8: the fixed-point clause applied at the concrete kind
`bar_chart`, and idempotence applied at the concrete input `donut`. -/
theorem viz_normalization_idempotent_witness :
    validate_visualization_type ("bar_chart".toList) = ("bar_chart".toList) ∧
    validate_visualization_type (validate_visualization_type ("donut".toList))
      = validate_visualization_type ("donut".toList) :=
  ⟨viz_normalization_idempotent.1 _ (by decide),
   viz_normalization_idempotent.2.1 _⟩

/-- Final user-visible outcome of one run of `process_ai_response`
(`pages/custom_query.py`). -/
inductive PipelineOutcome where
  | noSql
  | success (df : Df)
  | fallbackSuccess (df : Df)
  | fallbackSuggestions
deriving DecidableEq

/-- Instrumented trace of `process_ai_response` together with
`handle_empty_results`: the primary attempt's execution record, whether
the fallback path (`handle_empty_results`, which issues the attempt=2
model call) was entered, the fallback attempt's execution record, and
the outcome. -/
structure PipelineTrace where
  primary : Option ExecResult
  fallbackAttempted : Bool
  fallbackExec : Option ExecResult
  outcome : PipelineOutcome
deriving DecidableEq

/-- Model of `process_ai_response` (`pages/custom_query.py`, lines
180-221) together with `handle_empty_results` (lines 223-257).  The
model call `generate_sql_from_question(question, prompt, table_info,
attempt=2)` made inside `handle_empty_results` is modelled by the
oracle `fallbackResponse` (`none` when the call returns nothing).
Only the SQL component of the parsed tuple drives control flow; the
visualization fields feed pure rendering and are not tracked. -/
def process_ai_response (backend : List Char → Except (List Char) Df)
    (response : List Char) (fallbackResponse : Option (List Char)) : PipelineTrace :=
  let sql_query := (parse_openai_response response).1
  if sql_query = [] then
    { primary := none, fallbackAttempted := false, fallbackExec := none,
      outcome := PipelineOutcome.noSql }
  else
    let r := execute_sql_query backend sql_query
    if r.df ≠ [] then
      { primary := some r, fallbackAttempted := false, fallbackExec := none,
        outcome := PipelineOutcome.success r.df }
    else
      match fallbackResponse with
      | none =>
        { primary := some r, fallbackAttempted := true, fallbackExec := none,
          outcome := PipelineOutcome.fallbackSuggestions }
      | some fb =>
        let fallback_sql := (parse_openai_response fb).1
        if fallback_sql = [] then
          { primary := some r, fallbackAttempted := true, fallbackExec := none,
            outcome := PipelineOutcome.fallbackSuggestions }
        else
          let fr := execute_sql_query backend fallback_sql
          if fr.df ≠ [] then
            { primary := some r, fallbackAttempted := true, fallbackExec := some fr,
              outcome := PipelineOutcome.fallbackSuccess fr.df }
          else
            { primary := some r, fallbackAttempted := true, fallbackExec := some fr,
              outcome := PipelineOutcome.fallbackSuggestions }

/-- Counterexample to C1: for the response whose generated query
`SELECT name FROM t -- x` is rejected by the Safety Filter, the
pipeline does not terminate at the rejection — it proceeds to the
fallback attempt (the rejection produced an empty DataFrame, which is
what triggers `handle_empty_results`). -/
theorem safety_reject_claim_counterexample :
    is_safe_query (clean_sql_query
      ((parse_openai_response ("SQL_QUERY: SELECT name FROM t -- x".toList)).1)) = false ∧
    (process_ai_response (fun _ => Except.ok ([("r".toList)] : Df))
      ("SQL_QUERY: SELECT name FROM t -- x".toList) none).fallbackAttempted = true := by
  decide

/-- C1 amended: when the parsed primary query is non-empty, long
enough, and rejected by the Safety Filter, the backend is never
invoked for it and the unsafe-query error is displayed — but the
pipeline then falls through to the fallback attempt instead of
terminating, because the rejection is returned as an empty DataFrame. -/
theorem safety_reject_no_backend_then_fallback
    (backend : List Char → Except (List Char) Df)
    (response : List Char) (fallbackResponse : Option (List Char))
    (hsql : (parse_openai_response response).1 ≠ [])
    (hlen : 5 ≤ (pyStrip (clean_sql_query ((parse_openai_response response).1))).length)
    (hrejected : is_safe_query (clean_sql_query ((parse_openai_response response).1)) = false) :
    (process_ai_response backend response fallbackResponse).primary =
      some { df := [], backendCalled := false,
             errorShown := some ("Query contains potentially unsafe operations".toList) } ∧
    (process_ai_response backend response fallbackResponse).fallbackAttempted = true := by
  have hcond : ¬(clean_sql_query ((parse_openai_response response).1) = [] ∨
      (pyStrip (clean_sql_query ((parse_openai_response response).1))).length < 5) := by
    rintro (hc | hc)
    · rw [hc] at hlen
      simp [pyStrip] at hlen
    · omega
  have hexec : execute_sql_query backend ((parse_openai_response response).1) =
      { df := [], backendCalled := false,
        errorShown := some ("Query contains potentially unsafe operations".toList) } := by
    simp [execute_sql_query, hcond, hrejected]
  have hne : ¬(([] : Df) ≠ []) := by simp
  cases fallbackResponse with
  | none =>
    simp only [process_ai_response, hexec, if_neg hsql]
    rw [if_neg hne]
    exact ⟨rfl, rfl⟩
  | some fb =>
    simp only [process_ai_response, hexec, if_neg hsql]
    rw [if_neg hne]
    by_cases hfb : (parse_openai_response fb).1 = []
    · rw [if_pos hfb]
      exact ⟨rfl, rfl⟩
    · rw [if_neg hfb]
      split
      · exact ⟨rfl, rfl⟩
      · exact ⟨rfl, rfl⟩

/-- Witness for C1's amended statement at the concrete unsafe response. -/
theorem safety_reject_no_backend_then_fallback_witness :
    (process_ai_response (fun _ => Except.ok ([("r".toList)] : Df))
        ("SQL_QUERY: SELECT id FROM t; SELECT pw FROM u".toList) none).primary =
      some { df := [], backendCalled := false,
             errorShown := some ("Query contains potentially unsafe operations".toList) } ∧
    (process_ai_response (fun _ => Except.ok ([("r".toList)] : Df))
        ("SQL_QUERY: SELECT id FROM t; SELECT pw FROM u".toList) none).fallbackAttempted = true :=
  safety_reject_no_backend_then_fallback _ _ _ (by decide) (by decide) (by decide)

/-- Counterexample to C2: with a backend that fails with a syntax
error, the primary attempt executes and reports the error, yet the
pipeline still makes the fallback attempt — contradicting the claim
that an execution error is never retried. -/
theorem error_still_falls_back_counterexample :
    (process_ai_response (fun _ => Except.error ("syntax error at x".toList))
        ("SQL_QUERY: SELECT a FROM t".toList) none).primary =
      some { df := [], backendCalled := true,
             errorShown := some ("SQL Syntax Error: syntax error at x".toList) } ∧
    (process_ai_response (fun _ => Except.error ("syntax error at x".toList))
        ("SQL_QUERY: SELECT a FROM t".toList) none).fallbackAttempted = true := by
  decide

/-- C2 amended: when a primary SQL query is extracted, the fallback
attempt is triggered exactly when the primary `execute_sql_query` call
returns an empty DataFrame — which covers a successful zero-row
execution, but also an execution error (the error is reported, and the
fallback attempt is still made). -/
theorem fallback_iff_empty_primary_df
    (backend : List Char → Except (List Char) Df)
    (response : List Char) (fallbackResponse : Option (List Char))
    (hsql : (parse_openai_response response).1 ≠ []) :
    ((process_ai_response backend response fallbackResponse).fallbackAttempted = true ↔
      (execute_sql_query backend ((parse_openai_response response).1)).df = []) ∧
    (∀ e, backend (clean_sql_query ((parse_openai_response response).1)) = Except.error e →
      5 ≤ (pyStrip (clean_sql_query ((parse_openai_response response).1))).length →
      is_safe_query (clean_sql_query ((parse_openai_response response).1)) = true →
      (process_ai_response backend response fallbackResponse).primary =
        some { df := [], backendCalled := true,
               errorShown := some (handle_query_error_message e) } ∧
      (process_ai_response backend response fallbackResponse).fallbackAttempted = true) := by
  constructor
  · simp only [process_ai_response, if_neg hsql]
    by_cases hdf : (execute_sql_query backend ((parse_openai_response response).1)).df = []
    · simp only [hdf, ne_eq, not_true_eq_false, if_false]
      cases fallbackResponse with
      | none => simp [hdf]
      | some fb =>
        by_cases hfb : (parse_openai_response fb).1 = []
        · simp [hfb, hdf]
        · simp only [if_neg hfb]
          split <;> simp [hdf]
    · simp [hdf]
  · intro e he hlen hsafe
    have hcond : ¬(clean_sql_query ((parse_openai_response response).1) = [] ∨
        (pyStrip (clean_sql_query ((parse_openai_response response).1))).length < 5) := by
      rintro (hc | hc)
      · rw [hc] at hlen
        simp [pyStrip] at hlen
      · omega
    have hexec : execute_sql_query backend ((parse_openai_response response).1) =
        { df := [], backendCalled := true,
          errorShown := some (handle_query_error_message e) } := by
      simp [execute_sql_query, hcond, hsafe, he]
    have hne : ¬(([] : Df) ≠ []) := by simp
    cases fallbackResponse with
    | none =>
      simp only [process_ai_response, hexec, if_neg hsql]
      rw [if_neg hne]
      exact ⟨rfl, rfl⟩
    | some fb =>
      simp only [process_ai_response, hexec, if_neg hsql]
      rw [if_neg hne]
      by_cases hfb : (parse_openai_response fb).1 = []
      · rw [if_pos hfb]
        exact ⟨rfl, rfl⟩
      · rw [if_neg hfb]
        split
        · exact ⟨rfl, rfl⟩
        · exact ⟨rfl, rfl⟩

/-- Witness for C2's amended statement: a zero-row success triggers the
fallback, and an erroring backend reports the error and still triggers
the fallback. -/
theorem fallback_iff_empty_primary_df_witness :
    (process_ai_response (fun _ => Except.ok ([] : Df))
        ("SQL_QUERY: SELECT a FROM t".toList) none).fallbackAttempted = true ∧
    (process_ai_response (fun _ => Except.error ("boom".toList))
        ("SQL_QUERY: SELECT b FROM t".toList) none).primary =
      some { df := [], backendCalled := true,
             errorShown := some (handle_query_error_message ("boom".toList)) } :=
  ⟨(fallback_iff_empty_primary_df (fun _ => Except.ok ([] : Df))
      ("SQL_QUERY: SELECT a FROM t".toList) none (by decide)).1.mpr (by decide),
   ((fallback_iff_empty_primary_df (fun _ => Except.error ("boom".toList))
      ("SQL_QUERY: SELECT b FROM t".toList) none (by decide)).2
      ("boom".toList) rfl (by decide) (by decide)).1⟩

/-- Model of `get_sample_queries` (`ai/prompt_manager.py`, lines
207-258).  The column-kind mapping is the Python dict in insertion
order; `columns` and `table_name` are accepted but, as in the source,
do not influence the result.  The five conditional blocks are appended
in source order and the result truncated to the first 8. -/
def get_sample_queries (table_name : List Char) (columns : List (List Char))
    (data_types : List (List Char × List Char)) : List (List Char) :=
  let numeric_cols := (data_types.filter
    (fun kv => kv.2 == ("integer".toList) || kv.2 == ("numeric".toList))).map Prod.fst
  let text_cols := (data_types.filter (fun kv => kv.2 == ("text".toList))).map Prod.fst
  let date_cols := (data_types.filter (fun kv => kv.2 == ("datetime".toList))).map Prod.fst
  let queries : List (List Char) :=
    [("Show me a sample of the data".toList),
     ("What are the column statistics?".toList),
     ("How many total records are there?".toList)]
  let queries := queries ++
    (match text_cols with
     | [] => []
     | t :: _ =>
       [("Show distribution of ".toList) ++ t,
        ("What are the most common values in ".toList) ++ t ++ ("?".toList)])
  let queries := queries ++
    (match numeric_cols with
     | [] => []
     | n :: _ =>
       [("Show statistics for ".toList) ++ n,
        ("What\x27s the average ".toList) ++ n ++ ("?".toList)])
  let queries := queries ++
    (match numeric_cols with
     | n1 :: n2 :: _ => [("Compare ".toList) ++ n1 ++ (" and ".toList) ++ n2]
     | _ => [])
  let queries := queries ++
    (match text_cols, numeric_cols with
     | t :: _, n :: _ => [("Show ".toList) ++ n ++ (" by ".toList) ++ t]
     | _, _ => [])
  let queries := queries ++
    (match date_cols with
     | [] => []
     | d :: _ =>
       [("Show trends over ".toList) ++ d,
        ("What\x27s the date range in the data?".toList)])
  queries.take 8

/-- C6: the sample-query generator returns at most 8 suggestions, and
at least 3 whenever at least one column exists (in fact the three basic
exploration suggestions are always present). -/
theorem sample_queries_bounds (table_name : List Char) (columns : List (List Char))
    (data_types : List (List Char × List Char)) :
    (get_sample_queries table_name columns data_types).length ≤ 8 ∧
    (columns ≠ [] → 3 ≤ (get_sample_queries table_name columns data_types).length) := by
  constructor
  · simp only [get_sample_queries, List.length_take]
    exact Nat.min_le_left _ _
  · intro _
    simp only [get_sample_queries, List.length_take, List.length_append,
      List.length_cons, List.length_nil]
    omega

/-- Witness for C6 at a one-column table. -/
theorem sample_queries_bounds_witness :
    (get_sample_queries ("t".toList) [("a".toList)]
      [(("a".toList), ("integer".toList))]).length ≤ 8 ∧
    3 ≤ (get_sample_queries ("t".toList) [("a".toList)]
      [(("a".toList), ("integer".toList))]).length :=
  ⟨(sample_queries_bounds _ _ _).1,
   (sample_queries_bounds _ _ _).2 (by decide)⟩

/-- Model of `validate_prompt_parameters` (`ai/prompt_manager.py`,
lines 392-416).  A Python `None` or empty-dict `data_types` are both
falsy; the mapping is modelled as an association list, with the empty
list playing the falsy role. -/
def validate_prompt_parameters (table_name : List Char)
    (columns : List (List Char))
    (data_types : List (List Char × List Char)) : Bool × List Char :=
  if table_name = [] then (false, ("Table name is required".toList))
  else if columns = [] then (false, ("At least one column is required".toList))
  else if 1000 < columns.length then (false, ("Too many columns (max 1000)".toList))
  else if data_types ≠ [] ∧ data_types.length ≠ columns.length then
    (false, ("Data types count must match columns count".toList))
  else (true, ("Valid prompt parameters".toList))

/-- Counterexample to C7: with table `t`, one column, and an *empty*
column-kind mapping, the mapping's size (0) disagrees with the column
list's size (1), yet validation reports valid — the emptiness test
short-circuits the size comparison. -/
theorem empty_mapping_valid_counterexample :
    (validate_prompt_parameters ("t".toList) [("a".toList)] []).1 = true ∧
    ([] : List (List Char × List Char)).length ≠ [("a".toList)].length := by
  decide

/-- C7 amended: validation fails exactly when the table name is empty,
or the column list is empty, or the column list exceeds 1000 entries,
or the column-kind mapping is non-empty and its size disagrees with the
column list's size; for all other inputs it reports valid. -/
theorem validate_prompt_parameters_iff (table_name : List Char)
    (columns : List (List Char)) (data_types : List (List Char × List Char)) :
    (validate_prompt_parameters table_name columns data_types).1 = false ↔
      (table_name = [] ∨ columns = [] ∨ 1000 < columns.length ∨
        (data_types ≠ [] ∧ data_types.length ≠ columns.length)) := by
  unfold validate_prompt_parameters
  split
  · simp_all
  · split
    · simp_all
    · split
      · simp_all
      · split
        · simp_all
        · simp_all

/-- The deny-listed question keywords of `validate_query_generation`
(`ai/openai_client.py`). -/
def problematic_keywords : List (List Char) :=
  [("hack".toList), ("exploit".toList), ("bypass".toList), ("inject".toList)]

/-- Model of `validate_query_generation` (`ai/openai_client.py`, lines
142-166): reject empty or short (trimmed length below 5) questions,
questions longer than 500 characters, and questions whose lower-cased
text contains a deny-listed keyword. -/
def validate_query_generation (question : List Char) : Bool × List Char :=
  if question = [] ∨ (pyStrip question).length < 5 then
    (false, ("Question is too short or empty".toList))
  else if 500 < question.length then
    (false, ("Question is too long (max 500 characters)".toList))
  else
    match problematic_keywords.find? (fun k => containsSub k (pyLower question)) with
    | some k => (false, ("Question contains inappropriate content: ".toList) ++ k)
    | none => (true, ("Question is valid for processing".toList))

/-- C10: the question validator rejects any question whose lower-cased
text contains `hack`, `exploit`, `bypass`, or `inject` (regardless of
length), and accepts a question only if its trimmed length is at least
5, its length is at most 500, and it contains none of those
substrings. -/
theorem question_validator_conditions (question : List Char) :
    ((∃ k ∈ problematic_keywords, containsSub k (pyLower question) = true) →
      (validate_query_generation question).1 = false) ∧
    ((validate_query_generation question).1 = true →
      5 ≤ (pyStrip question).length ∧ question.length ≤ 500 ∧
        ∀ k ∈ problematic_keywords, containsSub k (pyLower question) = false) := by
  constructor
  · rintro ⟨k, hk, hcontains⟩
    unfold validate_query_generation
    split
    · rfl
    · split
      · rfl
      · split
        · rfl
        · next hnone =>
          exact absurd hcontains (by simpa using List.find?_eq_none.mp hnone k hk)
  · intro h
    unfold validate_query_generation at h
    split at h
    · exact absurd h (by simp)
    · next hshort =>
      split at h
      · exact absurd h (by simp)
      · next hlong =>
        split at h
        · exact absurd h (by simp)
        · next hnone =>
          push_neg at hshort
          refine ⟨?_, by omega, ?_⟩
          · omega
          · intro k hk
            simpa using List.find?_eq_none.mp hnone k hk

/-- Witness for C10: a keyword-containing question is rejected, and the
acceptance conditions hold for a concrete accepted question. -/
theorem question_validator_conditions_witness :
    (validate_query_generation ("please hack the db".toList)).1 = false ∧
    (5 ≤ (pyStrip ("show me sales by region".toList)).length ∧
     ("show me sales by region".toList).length ≤ 500 ∧
     ∀ k ∈ problematic_keywords,
       containsSub k (pyLower ("show me sales by region".toList)) = false) :=
  ⟨(question_validator_conditions _).1 ⟨("hack".toList), by decide, by decide⟩,
   (question_validator_conditions _).2 (by decide)⟩

/-- A canonical structured model response: the four labeled fields,
each at the start of its own line. -/
def canonicalResponse (q v r i : List Char) : List Char :=
  ("SQL_QUERY: ".toList) ++ q ++ '\n' ::
    (("VIZ_TYPE: ".toList) ++ v ++ '\n' ::
      (("VIZ_REASON: ".toList) ++ r ++ '\n' ::
        (("INSIGHTS: ".toList) ++ i)))

/-- Helper: a prefix of `a` is a prefix of `a ++ x`, at the Bool level. -/
theorem isPrefixOf_append_of_prefix (p a x : List Char) (h : p <+: a) :
    p.isPrefixOf (a ++ x) = true :=
  List.isPrefixOf_iff_prefix.mpr (h.trans (List.prefix_append a x))

/-- Helper: when `p` and `a` are prefix-incomparable, `p` is not a
prefix of `a ++ x` for any `x`. -/
theorem isPrefixOf_append_eq_false (p a x : List Char)
    (h1 : ¬ p <+: a) (h2 : ¬ a <+: p) : p.isPrefixOf (a ++ x) = false := by
  rw [← Bool.not_eq_true]
  intro hc
  have hp : p <+: a ++ x := List.isPrefixOf_iff_prefix.mp hc
  have ha : a <+: a ++ x := List.prefix_append a x
  rcases List.prefix_or_prefix_of_prefix hp ha with h | h
  · exact h1 h
  · exact h2 h

/-- Helper: cons form of `isPrefixOf_append_eq_false`. -/
theorem isPrefixOf_cons_eq_false (p : List Char) (c : Char) (x : List Char)
    (h1 : ¬ p <+: [c]) (h2 : ¬ [c] <+: p) : p.isPrefixOf (c :: x) = false := by
  have h := isPrefixOf_append_eq_false p [c] x h1 h2
  rwa [List.singleton_append] at h

/-- Helper: an occurrence of `a ++ b` yields an occurrence of `a`. -/
theorem containsSub_append_mono (a b s : List Char)
    (h : containsSub (a ++ b) s = true) : containsSub a s = true := by
  induction s with
  | nil =>
    rw [containsSub] at h ⊢
    rw [List.isPrefixOf_iff_prefix] at h ⊢
    rcases List.append_eq_nil.mp (List.prefix_nil.mp h) with ⟨ha, _⟩
    rw [ha]
  | cons c cs ih =>
    rw [containsSub] at h ⊢
    simp only [Bool.or_eq_true] at h ⊢
    rcases h with h | h
    · have hp : a <+: c :: cs :=
        (List.prefix_append a b).trans (List.isPrefixOf_iff_prefix.mp h)
      exact Or.inl (List.isPrefixOf_iff_prefix.mpr hp)
    · exact Or.inr (ih h)

/-- Helper: absence of `a` as a substring rules out `a ++ b` too. -/
theorem containsSub_extend_eq_false (a b s : List Char)
    (h : containsSub a s = false) : containsSub (a ++ b) s = false := by
  cases hc : containsSub (a ++ b) s
  · rfl
  · have ht := containsSub_append_mono a b s hc
    rw [h] at ht
    exact absurd ht (by decide)

/-- Helper: `replaceAllAux` is the identity on a text that does not
contain the pattern, for any fuel. -/
theorem replaceAllAux_of_not_contains (pat rep : List Char) (fuel : Nat) :
    ∀ s : List Char, containsSub pat s = false →
      replaceAllAux pat rep fuel s = s := by
  induction fuel with
  | zero =>
    intro s _
    cases s <;> rfl
  | succ f ih =>
    intro s h
    cases s with
    | nil => rfl
    | cons c cs =>
      rw [containsSub] at h
      rcases Bool.or_eq_false_iff.mp h with ⟨h1, h2⟩
      simp only [replaceAllAux]
      rw [if_neg (by simp [h1]), ih cs h2]

/-- Helper: `replaceAll` is the identity on a text that does not
contain the pattern. -/
theorem replaceAll_of_not_contains (pat rep s : List Char)
    (h : containsSub pat s = false) : replaceAll pat rep s = s := by
  unfold replaceAll
  split
  · rfl
  · exact replaceAllAux_of_not_contains pat rep s.length s h

/-- Helper: replacing a leading label occurrence by the empty string
removes exactly the label when the rest does not contain it. -/
theorem replaceAll_label (pat rest : List Char) (hne : pat ≠ [])
    (h : containsSub pat rest = false) :
    replaceAll pat [] (pat ++ rest) = rest := by
  cases pat with
  | nil => exact absurd rfl hne
  | cons p ps =>
    unfold replaceAll
    rw [if_neg (by simp)]
    have hpre : (p :: ps).isPrefixOf (p :: (ps ++ rest)) = true := by
      rw [← List.cons_append]
      exact isPrefixOf_append_of_prefix _ _ _ (List.prefix_refl _)
    have hfuel : ((p :: ps) ++ rest).length = ((ps ++ rest).length) + 1 := by
      simp [List.cons_append]
    rw [hfuel, List.cons_append]
    simp only [replaceAllAux]
    rw [if_pos hpre]
    have hdrop : (ps ++ rest).drop ((p :: ps).length - 1) = rest := by
      simp only [List.length_cons, Nat.add_sub_cancel]
      exact List.drop_left ps rest
    rw [hdrop, replaceAllAux_of_not_contains _ _ _ rest h, List.nil_append]

/-- Helper: membership distributes over append (negative form). -/
theorem char_not_mem_append (c : Char) (a b : List Char)
    (ha : c ∉ a) (hb : c ∉ b) : c ∉ a ++ b := by
  rw [List.mem_append]
  rintro (h | h)
  · exact ha h
  · exact hb h

/-- Helper: splitting a newline-free text on newlines returns the text
as the single piece. -/
theorem splitNl_of_not_mem (a : List Char) (h : '\n' ∉ a) : splitNl a = [a] := by
  induction a with
  | nil => rfl
  | cons c cs ih =>
    have hc : ¬ c = '\n' := fun he => h (he ▸ List.mem_cons_self c cs)
    have hcs : '\n' ∉ cs := fun hm => h (List.mem_cons_of_mem c hm)
    rw [splitNl, if_neg hc, ih hcs]

/-- Helper: splitting pulls off a leading newline-free line. -/
theorem splitNl_append (a rest : List Char) (h : '\n' ∉ a) :
    splitNl (a ++ '\n' :: rest) = a :: splitNl rest := by
  induction a with
  | nil =>
    rw [List.nil_append, splitNl, if_pos rfl]
  | cons c cs ih =>
    have hc : ¬ c = '\n' := fun he => h (he ▸ List.mem_cons_self c cs)
    have hcs : '\n' ∉ cs := fun hm => h (List.mem_cons_of_mem c hm)
    rw [List.cons_append, splitNl, if_neg hc, ih hcs]

/-- Helper: stripping ignores a leading whitespace character. -/
theorem pyStrip_cons_ws (c : Char) (s : List Char) (h : pyWS c = true) :
    pyStrip (c :: s) = pyStrip s := by
  simp [pyStrip, List.dropWhile_cons, h]

/-- Helper: effect of the line loop on a canonical `SQL_QUERY:` line. -/
theorem parseLine_sql (acc : ParseAcc) (x : List Char)
    (hx_label : containsSub ("SQL_QUERY:".toList) x = false)
    (hx_fence : containsSub ("```".toList) x = false)
    (hx_strip : pyStrip x = x) :
    parseLine acc (("SQL_QUERY: ".toList) ++ x) = { acc with sql := x } := by
  have hpre : ("SQL_QUERY:".toList).isPrefixOf (("SQL_QUERY: ".toList) ++ x) = true :=
    isPrefixOf_append_of_prefix _ _ _ (by decide)
  have heq : ("SQL_QUERY: ".toList) ++ x = ("SQL_QUERY:".toList) ++ (' ' :: x) := by
    rw [show ("SQL_QUERY: ".toList) = ("SQL_QUERY:".toList) ++ [' '] from by decide,
      List.append_assoc, List.singleton_append]
  have hcontains : containsSub ("SQL_QUERY:".toList) (' ' :: x) = false := by
    rw [containsSub, isPrefixOf_cons_eq_false _ _ _ (by decide) (by decide), hx_label]
    rfl
  have hfsql : containsSub ("```sql".toList) x = false := by
    rw [show ("```sql".toList) = ("```".toList) ++ ("sql".toList) from rfl]
    exact containsSub_extend_eq_false _ _ _ hx_fence
  unfold parseLine
  rw [if_pos hpre, heq, replaceAll_label _ _ (by decide) hcontains,
    pyStrip_cons_ws _ _ (by decide), hx_strip]
  simp only [replaceAll_of_not_contains _ _ _ hfsql,
    replaceAll_of_not_contains _ _ _ hx_fence, hx_strip]

/-- Helper: effect of the line loop on a canonical `VIZ_TYPE:` line. -/
theorem parseLine_viz (acc : ParseAcc) (x : List Char)
    (hx_label : containsSub ("VIZ_TYPE:".toList) x = false)
    (hx_strip : pyStrip x = x) :
    parseLine acc (("VIZ_TYPE: ".toList) ++ x) = { acc with viz := x } := by
  have h1 : ("SQL_QUERY:".toList).isPrefixOf (("VIZ_TYPE: ".toList) ++ x) = false :=
    isPrefixOf_append_eq_false _ _ _ (by decide) (by decide)
  have hpre : ("VIZ_TYPE:".toList).isPrefixOf (("VIZ_TYPE: ".toList) ++ x) = true :=
    isPrefixOf_append_of_prefix _ _ _ (by decide)
  have heq : ("VIZ_TYPE: ".toList) ++ x = ("VIZ_TYPE:".toList) ++ (' ' :: x) := by
    rw [show ("VIZ_TYPE: ".toList) = ("VIZ_TYPE:".toList) ++ [' '] from by decide,
      List.append_assoc, List.singleton_append]
  have hcontains : containsSub ("VIZ_TYPE:".toList) (' ' :: x) = false := by
    rw [containsSub, isPrefixOf_cons_eq_false _ _ _ (by decide) (by decide), hx_label]
    rfl
  unfold parseLine
  rw [if_neg (by simp [h1]), if_pos hpre, heq,
    replaceAll_label _ _ (by decide) hcontains,
    pyStrip_cons_ws _ _ (by decide), hx_strip]

/-- Helper: effect of the line loop on a canonical `VIZ_REASON:` line. -/
theorem parseLine_reason (acc : ParseAcc) (x : List Char)
    (hx_label : containsSub ("VIZ_REASON:".toList) x = false)
    (hx_strip : pyStrip x = x) :
    parseLine acc (("VIZ_REASON: ".toList) ++ x) = { acc with reason := x } := by
  have h1 : ("SQL_QUERY:".toList).isPrefixOf (("VIZ_REASON: ".toList) ++ x) = false :=
    isPrefixOf_append_eq_false _ _ _ (by decide) (by decide)
  have h2 : ("VIZ_TYPE:".toList).isPrefixOf (("VIZ_REASON: ".toList) ++ x) = false :=
    isPrefixOf_append_eq_false _ _ _ (by decide) (by decide)
  have hpre : ("VIZ_REASON:".toList).isPrefixOf (("VIZ_REASON: ".toList) ++ x) = true :=
    isPrefixOf_append_of_prefix _ _ _ (by decide)
  have heq : ("VIZ_REASON: ".toList) ++ x = ("VIZ_REASON:".toList) ++ (' ' :: x) := by
    rw [show ("VIZ_REASON: ".toList) = ("VIZ_REASON:".toList) ++ [' '] from by decide,
      List.append_assoc, List.singleton_append]
  have hcontains : containsSub ("VIZ_REASON:".toList) (' ' :: x) = false := by
    rw [containsSub, isPrefixOf_cons_eq_false _ _ _ (by decide) (by decide), hx_label]
    rfl
  unfold parseLine
  rw [if_neg (by simp [h1]), if_neg (by simp [h2]), if_pos hpre, heq,
    replaceAll_label _ _ (by decide) hcontains,
    pyStrip_cons_ws _ _ (by decide), hx_strip]

/-- Helper: effect of the line loop on a canonical `INSIGHTS:` line. -/
theorem parseLine_insights (acc : ParseAcc) (x : List Char)
    (hx_label : containsSub ("INSIGHTS:".toList) x = false)
    (hx_strip : pyStrip x = x) :
    parseLine acc (("INSIGHTS: ".toList) ++ x) = { acc with insights := x } := by
  have h1 : ("SQL_QUERY:".toList).isPrefixOf (("INSIGHTS: ".toList) ++ x) = false :=
    isPrefixOf_append_eq_false _ _ _ (by decide) (by decide)
  have h2 : ("VIZ_TYPE:".toList).isPrefixOf (("INSIGHTS: ".toList) ++ x) = false :=
    isPrefixOf_append_eq_false _ _ _ (by decide) (by decide)
  have h3 : ("VIZ_REASON:".toList).isPrefixOf (("INSIGHTS: ".toList) ++ x) = false :=
    isPrefixOf_append_eq_false _ _ _ (by decide) (by decide)
  have hpre : ("INSIGHTS:".toList).isPrefixOf (("INSIGHTS: ".toList) ++ x) = true :=
    isPrefixOf_append_of_prefix _ _ _ (by decide)
  have heq : ("INSIGHTS: ".toList) ++ x = ("INSIGHTS:".toList) ++ (' ' :: x) := by
    rw [show ("INSIGHTS: ".toList) = ("INSIGHTS:".toList) ++ [' '] from by decide,
      List.append_assoc, List.singleton_append]
  have hcontains : containsSub ("INSIGHTS:".toList) (' ' :: x) = false := by
    rw [containsSub, isPrefixOf_cons_eq_false _ _ _ (by decide) (by decide), hx_label]
    rfl
  unfold parseLine
  rw [if_neg (by simp [h1]), if_neg (by simp [h2]), if_neg (by simp [h3]),
    if_pos hpre, heq, replaceAll_label _ _ (by decide) hcontains,
    pyStrip_cons_ws _ _ (by decide), hx_strip]

/-- Helper: `clean_extracted_sql` fixes an already-clean SQL text. -/
theorem clean_extracted_sql_fixed (x : List Char)
    (hne : x ≠ [])
    (hfence : containsSub ("```".toList) x = false)
    (hws : joinSpace (splitWs x) = x)
    (hsemi : rstripSemi x = x)
    (hstrip : pyStrip x = x)
    (hstart : startsWithAny (pyStrip (pyUpper x))
        [("SELECT".toList), ("WITH".toList), ("SHOW".toList)] = true) :
    clean_extracted_sql x = x := by
  have hfsql : containsSub ("```sql".toList) x = false := by
    rw [show ("```sql".toList) = ("```".toList) ++ ("sql".toList) from rfl]
    exact containsSub_extend_eq_false _ _ _ hfence
  unfold clean_extracted_sql
  rw [if_neg hne]
  simp only [replaceAll_of_not_contains _ _ _ hfsql,
    replaceAll_of_not_contains _ _ _ hfence, hws, hsemi, hstrip]
  rw [if_pos hstart]

/-- C5: for every response in the canonical four-line labeled form with
pre-trimmed, newline-free field payloads (the SQL additionally clean:
no code fences, no label occurrence, normalized whitespace, no trailing
semicolon, and starting with an SQL keyword), the Response Parser
returns exactly the four payloads, the chart kind normalized. -/
theorem parse_canonical_roundtrip (q v r i : List Char)
    (hq_nl : '\n' ∉ q) (hv_nl : '\n' ∉ v) (hr_nl : '\n' ∉ r) (hi_nl : '\n' ∉ i)
    (hq_ne : q ≠ [])
    (hq_label : containsSub ("SQL_QUERY:".toList) q = false)
    (hv_label : containsSub ("VIZ_TYPE:".toList) v = false)
    (hr_label : containsSub ("VIZ_REASON:".toList) r = false)
    (hi_label : containsSub ("INSIGHTS:".toList) i = false)
    (hq_fence : containsSub ("```".toList) q = false)
    (hq_strip : pyStrip q = q) (hv_strip : pyStrip v = v)
    (hr_strip : pyStrip r = r) (hi_strip : pyStrip i = i)
    (hq_ws : joinSpace (splitWs q) = q)
    (hq_semi : rstripSemi q = q)
    (hq_start : startsWithAny (pyStrip (pyUpper q))
        [("SELECT".toList), ("WITH".toList), ("SHOW".toList)] = true) :
    parse_openai_response (canonicalResponse q v r i) =
      (q, validate_visualization_type v, r, i) := by
  have hner : canonicalResponse q v r i ≠ [] := by
    simp [canonicalResponse]
  have hsplit : splitNl (canonicalResponse q v r i) =
      [("SQL_QUERY: ".toList) ++ q, ("VIZ_TYPE: ".toList) ++ v,
       ("VIZ_REASON: ".toList) ++ r, ("INSIGHTS: ".toList) ++ i] := by
    unfold canonicalResponse
    rw [splitNl_append _ _ (char_not_mem_append _ _ _ (by decide) hq_nl),
      splitNl_append _ _ (char_not_mem_append _ _ _ (by decide) hv_nl),
      splitNl_append _ _ (char_not_mem_append _ _ _ (by decide) hr_nl),
      splitNl_of_not_mem _ (char_not_mem_append _ _ _ (by decide) hi_nl)]
  have hfold : (splitNl (canonicalResponse q v r i)).foldl parseLine
      { sql := [], viz := ("bar_chart".toList),
        reason := ("Default visualization".toList), insights := [] } =
      { sql := q, viz := v, reason := r, insights := i } := by
    rw [hsplit]
    simp only [List.foldl_cons, List.foldl_nil]
    rw [parseLine_sql _ _ hq_label hq_fence hq_strip,
      parseLine_viz _ _ hv_label hv_strip,
      parseLine_reason _ _ hr_label hr_strip,
      parseLine_insights _ _ hi_label hi_strip]
  simp only [parse_openai_response, if_neg hner, hfold]
  rw [if_neg hq_ne, if_neg hq_ne,
    clean_extracted_sql_fixed q hq_ne hq_fence hq_ws hq_semi hq_strip hq_start]

/-- Witness for C5 at Scenario A: the canonical response for question
`show me sales by region` parses to the exact SQL, the normalized kind
`bar_chart`, the rationale, and the insight, and the parsed SQL passes
the Safety Filter. -/
theorem parse_canonical_roundtrip_witness :
    canonicalResponse ("SELECT region, SUM(sales) FROM t GROUP BY region".toList)
        ("bar".toList) ("ranks regions".toList) ("region A leads".toList) =
      (("SQL_QUERY: SELECT region, SUM(sales) FROM t GROUP BY region\nVIZ_TYPE: bar\nVIZ_REASON: ranks regions\nINSIGHTS: region A leads").toList) ∧
    parse_openai_response
        (canonicalResponse ("SELECT region, SUM(sales) FROM t GROUP BY region".toList)
          ("bar".toList) ("ranks regions".toList) ("region A leads".toList)) =
      (("SELECT region, SUM(sales) FROM t GROUP BY region".toList),
       ("bar_chart".toList), ("ranks regions".toList), ("region A leads".toList)) ∧
    is_safe_query ("SELECT region, SUM(sales) FROM t GROUP BY region".toList) = true := by
  refine ⟨by decide, ?_, by decide⟩
  have h := parse_canonical_roundtrip
    ("SELECT region, SUM(sales) FROM t GROUP BY region".toList)
    ("bar".toList) ("ranks regions".toList) ("region A leads".toList)
    (by decide) (by decide) (by decide) (by decide) (by decide) (by decide)
    (by decide) (by decide) (by decide) (by decide) (by decide) (by decide)
    (by decide) (by decide) (by decide) (by decide) (by decide)
  rw [h]
  decide

end DataDash
